import Mathlib

/-!
Shallow embedding of `scylla-artifacts.py`: the command-result inspector,
the package-backend abstraction, the service lifecycle manager, the
installer-variant dispatcher and the Fedora 22 release setup, together with
proofs settling the frozen claims about them.
-/

set_option maxRecDepth 4000

namespace ScyllaArtifacts

/-! ## Command result inspector (lines 24-42) -/

/-- Result of one external command: captured stdout and stderr, as the
character sequences `result.stdout` / `result.stderr`. -/
structure CmdResult where
  stdout : List Char
  stderr : List Char
deriving DecidableEq

/-- The literal part of the pattern `'scriptlet failure in rpm package scylla.*'`
(line 35). -/
def marker : List Char := "scriptlet failure in rpm package scylla".data

/-- The text matched by the pattern at a position where `marker` is a prefix:
the greedy `.*` extends the match to the end of the line (a dot matches any
character except a newline). -/
def matchedAt (s : List Char) : List Char :=
  marker ++ (s.drop marker.length).takeWhile (fun c => c ≠ '\n')

/-- Scanner for `re.findall(failure_pattern, output)` (line 38): scan left to
right; at each position where the pattern matches, emit the (greedy) match and
resume scanning right after it (matches do not overlap).  The first argument
counts characters still to be skipped from the previous match. -/
def findallGo : Nat → List Char → List (List Char)
  | _, [] => []
  | n + 1, _ :: rest => findallGo n rest
  | 0, c :: rest =>
    if marker.isPrefixOf (c :: rest) then
      matchedAt (c :: rest) :: findallGo ((matchedAt (c :: rest)).length - 1) rest
    else
      findallGo 0 rest

/-- All non-overlapping matches of the scriptlet-failure pattern in `s`. -/
def findallScriptlet (s : List Char) : List (List Char) := findallGo 0 s

/-- Whitespace characters of Python 2 `str.split()` (ASCII). -/
def isPySpace (c : Char) : Bool :=
  c = ' ' || c = '\t' || c = '\n' || c = '\r' || c = '\x0b' || c = '\x0c'

/-- Python `occurrence.split()[-1]` (line 40): the final whitespace-delimited
token.  Every occurrence starts with `marker`, hence has at least one token,
so the `[-1]` indexing in the source cannot fail; on an all-whitespace input
(unreachable from a match) this total model returns `[]`. -/
def lastToken (s : List Char) : List Char :=
  ((s.reverse.dropWhile isPySpace).takeWhile (fun c => !isPySpace c)).reverse

/-- `_search_scriptlet_failure` (lines 32-42) acting on the registry
`SCRIPTLET_FAILURE_LIST`: `re.search` succeeds exactly when `re.findall`
returns a non-empty list, and then the final token of every occurrence is
appended in order. -/
def searchScriptletFailure (r : CmdResult) (reg : List (List Char)) :
    List (List Char) :=
  let output := r.stdout ++ r.stderr
  if findallScriptlet output = [] then reg
  else reg ++ (findallScriptlet output).map lastToken

/-! ## Package backend abstraction (lines 45-157) -/

/-- Outcome of `process.run` for an install command: a result on success, or a
`CmdError` carrying a result on failure. -/
inductive RunOutcome
  | ok (r : CmdResult)
  | cmdError (r : CmdResult)
deriving DecidableEq

/-- Whether the command exited successfully. -/
def RunOutcome.isOk : RunOutcome → Bool
  | .ok _ => true
  | .cmdError _ => false

/-- The four backend variants of `backend_mapping` (lines 142-145). -/
inductive PMBackend
  | scyllaApt
  | scyllaYum
  | scyllaDnf
  | zypper
deriving DecidableEq

/-- `ScyllaYumBackend.install` (lines 47-57): run the install command; on
success feed the result to the inspector and return `True`; a `CmdError` is
caught and yields `False`. -/
def scyllaYumInstall (o : RunOutcome) (reg : List (List Char)) :
    Bool × List (List Char) :=
  match o with
  | .ok r => (true, searchScriptletFailure r reg)
  | .cmdError _ => (false, reg)

/-- `ScyllaDnfBackend.install` (lines 62-72), textually identical to the yum
variant. -/
def scyllaDnfInstall (o : RunOutcome) (reg : List (List Char)) :
    Bool × List (List Char) :=
  match o with
  | .ok r => (true, searchScriptletFailure r reg)
  | .cmdError _ => (false, reg)

/-- Modelled from the spec: `ScyllaAptBackend` (lines 75-111) overrides only
`upgrade`; its `install` is the one inherited from the external library
backend, which executes the install command and returns success, and which
cannot reference this module's `SCRIPTLET_FAILURE_LIST` global.  Hence the
registry is left untouched. -/
def aptInstall (o : RunOutcome) (reg : List (List Char)) :
    Bool × List (List Char) :=
  (o.isOk, reg)

/-- Modelled from the spec: the zypper entry of `backend_mapping` (line 145)
is the plain external library backend, with no inspector call; the registry is
left untouched. -/
def zypperInstall (o : RunOutcome) (reg : List (List Char)) :
    Bool × List (List Char) :=
  (o.isOk, reg)

/-- Dispatch of `install` through the resolved backend. -/
def installVia : PMBackend → RunOutcome → List (List Char) →
    Bool × List (List Char)
  | .scyllaApt => aptInstall
  | .scyllaYum => scyllaYumInstall
  | .scyllaDnf => scyllaDnfInstall
  | .zypper => zypperInstall

/-- `backend_mapping` keyed by the detected tool name (lines 142-145). -/
def backendMapping (tool : String) : Option PMBackend :=
  if tool = "apt-get" then some .scyllaApt
  else if tool = "yum" then some .scyllaYum
  else if tool = "dnf" then some .scyllaDnf
  else if tool = "zypper" then some .zypper
  else none

/-- Mutable state of `ScyllaSoftwareManager` (lines 124-132). -/
structure SWMState where
  initialized : Bool
  backend : Option PMBackend
deriving DecidableEq

/-- `ScyllaSoftwareManager._init_on_demand` (lines 134-153): when already
initialized, nothing happens; otherwise the detected tool is looked up in
`backend_mapping`, an unrecognized tool raises `NotImplementedError`, and a
recognized one is instantiated and cached. -/
def initOnDemand (tool : String) (m : SWMState) : Except String SWMState :=
  if m.initialized then .ok m
  else
    match backendMapping tool with
    | none => .error ("Unimplemented package management system: " ++ tool ++ ".")
    | some b => .ok ⟨true, some b⟩

/-! ## Service lifecycle manager (lines 189-242) -/

/-- `self.services` (line 192). -/
def services : List String := ["scylla-server", "scylla-jmx"]

/-- The three distinctly named lifecycle errors (lines 160-169), each carrying
the unit named in the message. -/
inductive SvcError
  | startFail (u : String)
  | stopFail (u : String)
  | restartFail (u : String)
deriving DecidableEq

/-- The post-transition check loop of `start_services` / `restart_services`:
walk the list in order and raise on the first unit whose status is not
active (`st`). -/
def checkActive (mk : String → SvcError) (st : String → Bool) :
    List String → Except SvcError Unit
  | [] => .ok ()
  | s :: rest => if st s then checkActive mk st rest else .error (mk s)

/-- The post-transition check loop of `stop_services`: walk the list in order
and raise on the first unit whose status is still active. -/
def checkInactive (mk : String → SvcError) (st : String → Bool) :
    List String → Except SvcError Unit
  | [] => .ok ()
  | s :: rest => if st s then .error (mk s) else checkInactive mk st rest

/-- `start_services` (lines 208-218): first component is the sequence of
units on which `srv_manager.start` is invoked (in list order, all attempted
before any check); second is the outcome of the check loop, given the unit
statuses `st` observed after the transition attempts.  The `journalctl` dump
before the raise is diagnostic output only. -/
def startServices (st : String → Bool) :
    List String × Except SvcError Unit :=
  (services, checkActive .startFail st services)

/-- `stop_services` (lines 220-230): `srv_manager.stop` is invoked over
`reversed(self.services)`, and the status check then walks `self.services`
forward, raising on a unit still active. -/
def stopServices (st : String → Bool) :
    List String × Except SvcError Unit :=
  (services.reverse, checkInactive .stopFail st services)

/-- `restart_services` (lines 232-242): restart in list order, then check all
are active. -/
def restartServices (st : String → Bool) :
    List String × Except SvcError Unit :=
  (services, checkActive .restartFail st services)

/-- Environment seen by the readiness poll: the status each unit would report
and whether TCP port 9042 on localhost is free, both indexed by the poll
attempt number. -/
structure ServiceEnv where
  unitStatus : Nat → String → Bool
  portFree : Nat → Bool

/-- `_scylla_service_is_up` (lines 194-198): the loop queries the status of
every unit in `self.services` but discards the results; the value returned is
only `not network.is_port_free(9042, 'localhost')`. -/
def scyllaServiceIsUp (env : ServiceEnv) (k : Nat) : Bool :=
  let _statusQueries := services.map (fun s => env.unitStatus k s)
  !(env.portFree k)

/-- Modelled from the spec: the external bounded-wait helper
`wait.wait_for(func, timeout, step)` evaluates the predicate once per step
until the timeout elapses and returns the first truthy result, or `None` when
the predicate never held within the bound.  Poll `k` happens at time
`k * step`, so exactly the attempts with `k * step < timeout` are made. -/
def waitFor (f : Nat → Bool) (timeout step : Nat) : Option Nat :=
  (List.range ((timeout + step - 1) / step)).find? f

/-- `wait_services_up` (lines 200-206): poll the readiness predicate with
timeout 900 and step 5; a `None` result raises `StartServiceError`. -/
def waitServicesUp (env : ServiceEnv) : Except String Unit :=
  match waitFor (scyllaServiceIsUp env) 900 5 with
  | some _ => .ok ()
  | none => .error "Scylla service does not appear to be up after 900 s"

/-! ## Installer variant dispatcher (lines 663-713) -/

/-- The (name, version, release) triple produced by distribution detection
and consumed by `scylla_setup`. -/
structure DistroInfo where
  name : String
  version : String
  release : String
deriving DecidableEq

/-- The installer classes the dispatcher can instantiate. -/
inductive InstallerVariant
  | ami
  | ubuntu1404
  | ubuntu1604
  | debian8
  | fedora22
  | centos7
deriving DecidableEq

/-- ASCII lowercasing of one character, as Python `str.lower()` acts on the
ASCII distribution names compared here. -/
def lowerChar (c : Char) : Char :=
  if 'A' ≤ c ∧ c ≤ 'Z' then Char.ofNat (c.toNat + 32) else c

/-- ASCII lowercasing of a string (`detected_distro.name.lower()`). -/
def lowerStr (s : String) : String := ⟨s.data.map lowerChar⟩

/-- The `if ami / elif ... / else self.skip(...)` chain of `scylla_setup`
(lines 690-711): `none` is the `self.skip('Unsupported OS: ...')` outcome. -/
def selectInstaller (d : DistroInfo) (ami : Bool) : Option InstallerVariant :=
  if ami then some .ami
  else if lowerStr d.name = "ubuntu" ∧ d.version = "14" ∧ d.release = "04" then
    some .ubuntu1404
  else if lowerStr d.name = "ubuntu" ∧ d.version = "16" ∧ d.release = "04" then
    some .ubuntu1604
  else if lowerStr d.name = "debian" ∧ d.version = "8" then some .debian8
  else if lowerStr d.name = "fedora" ∧ d.version = "22" then some .fedora22
  else if lowerStr d.name = "centos" ∧ d.version = "7" then some .centos7
  else none

/-- Written from the claim's words, for comparison with `selectInstaller`:
the supported combinations are ami=true, Ubuntu 14.04, Ubuntu 16.04,
Debian 8, Fedora 22 and CentOS 7. -/
def claimSupported (d : DistroInfo) (ami : Bool) : Prop :=
  ami = true ∨
  (lowerStr d.name = "ubuntu" ∧ d.version = "14" ∧ d.release = "04") ∨
  (lowerStr d.name = "ubuntu" ∧ d.version = "16" ∧ d.release = "04") ∨
  (lowerStr d.name = "debian" ∧ d.version = "8") ∨
  (lowerStr d.name = "fedora" ∧ d.version = "22") ∨
  (lowerStr d.name = "centos" ∧ d.version = "7")

instance (d : DistroInfo) (ami : Bool) : Decidable (claimSupported d ami) := by
  unfold claimSupported; infer_instance

/-! ## Fedora 22 setup and the install loop (lines 270-282, 476-506) -/

/-- `os.path.basename`: the final component of a slash-separated path. -/
def basename (p : String) : String := (p.splitOn "/").getLastD p

/-- The install loop of `ScyllaInstallGeneric.run` (lines 278-282): install
each resolved package, aborting with `InstallPackageError` on the first
package whose install returns false. -/
def installPackages (good : String → Bool) : List String → Except String Unit
  | [] => .ok ()
  | p :: rest =>
    if good p then installPackages good rest
    else .error ("Package " ++ basename p ++
      " could not be installed (see logs for details)")

def repoSrc10 : String := "http://downloads.scylladb.com/rpm/fedora/scylla-1.0.repo"

def repoSrc11 : String := "http://downloads.scylladb.com/rpm/fedora/scylla-1.1.repo"

def repoSrc12 : String := "http://downloads.scylladb.com/rpm/fedora/scylla-1.2.repo"

def repoSrcUnstable : String :=
  "http://downloads.scylladb.com/rpm/unstable/fedora/master/latest/scylla.repo"

/-- `ScyllaInstallFedora22.setup_release` (lines 484-506): the repository
source registered (curl destination) and the package list returned.  The
defaults `repo_src = repo_src_1_1` and `pkg_list = []` survive any mode
outside the four recognized ones. -/
def fedora22SetupRelease (mode : String) : String × List String :=
  if mode = "1.0" then (repoSrc10, ["scylla-server", "scylla-jmx", "scylla-tools"])
  else if mode = "1.1" then (repoSrc11, ["scylla-server", "scylla-jmx", "scylla-tools"])
  else if mode = "1.2" then (repoSrc12, ["scylla"])
  else if mode = "unstable" then (repoSrcUnstable, ["scylla"])
  else (repoSrc11, [])

/-- `ScyllaInstallFedora22.setup_ci` (lines 478-482) returns `['scylla']`. -/
def fedora22SetupCi : List String := ["scylla"]

/-- The mode dispatch of `ScyllaInstallGeneric.run` (lines 273-277) applied to
the Fedora 22 installer: the package list `run()` will iterate over. -/
def fedora22RunPkgs (mode : String) : List String :=
  if mode = "ci" then fedora22SetupCi else (fedora22SetupRelease mode).2

/-! ## Version gate of the Ubuntu 14.04 CI setup (lines 357-370) -/

/-- Numeric value of an ASCII digit. -/
def digitVal (c : Char) : Nat := c.toNat - '0'.toNat

/-- Parse a dotted numeric version string into its release components. -/
def parseVerGo : List Char → Nat → List Nat
  | [], acc => [acc]
  | c :: rest, acc =>
    if c = '.' then acc :: parseVerGo rest 0
    else parseVerGo rest (acc * 10 + digitVal c)

/-- Release components of a version string such as the `[\d.]+` capture of
`setup_ci` after `strip('.')`. -/
def parseVer (s : String) : List Nat := parseVerGo s.data 0

/-- Ordering of `pkg_resources.parse_version` on numeric dotted versions:
componentwise numeric comparison, with a missing component equal to zero
(so `1.7.0` and `1.7` compare equal). -/
def verCmp : List Nat → List Nat → Ordering
  | [], ys => if ys.all (· = 0) then .eq else .lt
  | x :: xs, [] => if x = 0 then verCmp xs [] else .gt
  | x :: xs, y :: ys =>
    if x < y then .lt else if y < x then .gt else verCmp xs ys

/-- `parse_version(v) >= parse_version(w)`. -/
def verGe (x y : List Nat) : Bool :=
  match verCmp x y with
  | .lt => false
  | _ => true

/-- The JRE-provisioning gate of `ScyllaInstallUbuntu1404.setup_ci`
(line 363): `parse_version(ver) >= parse_version('1.7')`; the five
provisioning commands run exactly when this is true. -/
def gateJre (ver : List Nat) : Bool := verGe ver (parseVer "1.7")

/-! ## Concrete inputs used by counterexamples and witnesses -/

/-- The marker text of the spec's scriptlet-failure example. -/
def fooMarker : List Char := "scriptlet failure in rpm package scylla-foo".data

/-- Whether `needle` occurs as a contiguous substring of the haystack. -/
def occursIn (needle : List Char) : List Char → Bool
  | [] => needle.isEmpty
  | c :: rest => needle.isPrefixOf (c :: rest) || occursIn needle rest

/-- A command result whose output is exactly the spec's marker example. -/
def fooResult : CmdResult := ⟨fooMarker, []⟩

/-- A command result whose output contains the marker text followed by more
text on the same line. -/
def fooBarResult : CmdResult :=
  ⟨"scriptlet failure in rpm package scylla-foo bar".data, []⟩

/-- A poll environment in which no unit ever reports active while port 9042
is occupied from the start. -/
def downUnitsEnv : ServiceEnv := ⟨fun _ _ => false, fun _ => false⟩

/-- A poll environment in which port 9042 opens at the third poll. -/
def lateEnv : ServiceEnv := ⟨fun _ _ => true, fun k => k < 2⟩

/-! ## Helper lemmas -/

lemma prefixOf_extend (a b c : List Char) (h : a.isPrefixOf b = true) :
    a.isPrefixOf (b ++ c) = true := by
  induction a generalizing b with
  | nil => simp [List.isPrefixOf]
  | cons x xs ih =>
    cases b with
    | nil => simp [List.isPrefixOf] at h
    | cons y ys =>
      simp only [List.cons_append, List.isPrefixOf, Bool.and_eq_true] at h ⊢
      exact ⟨h.1, ih ys h.2⟩

lemma findallGo_skip (pre s : List Char)
    (h : ∀ i, i < pre.length → marker.isPrefixOf ((pre ++ s).drop i) = false) :
    findallGo 0 (pre ++ s) = findallGo 0 s := by
  induction pre with
  | nil => rfl
  | cons c pre ih =>
    have h0 : marker.isPrefixOf (c :: (pre ++ s)) = false := by
      simpa using h 0 (by simp)
    rw [List.cons_append, findallGo, h0]
    simp only [Bool.false_eq_true, if_false]
    exact ih (fun i hi => by
      simpa [List.drop_succ_cons] using h (i + 1) (by simpa using Nat.succ_lt_succ hi))

lemma verCmp_append_zero (xs ys : List Nat) :
    verCmp xs (ys ++ [0]) = verCmp xs ys := by
  induction xs generalizing ys with
  | nil => simp [verCmp]
  | cons x xs ih =>
    cases ys with
    | nil =>
      simp only [List.nil_append, verCmp]
      rcases Nat.eq_zero_or_pos x with h | h
      · simp [h]
      · simp [h, Nat.pos_iff_ne_zero.mp h]
    | cons y ys =>
      simp only [List.cons_append, verCmp]
      split
      · rfl
      · split
        · rfl
        · exact ih ys

/-- Unfolding of `searchScriptletFailure` without the local `let`. -/
lemma search_eq (r : CmdResult) (reg : List (List Char)) :
    searchScriptletFailure r reg =
      if findallScriptlet (r.stdout ++ r.stderr) = [] then reg
      else reg ++ (findallScriptlet (r.stdout ++ r.stderr)).map lastToken := rfl

/-- Scanning text without any occurrence of the marker pattern yields no
match. -/
lemma findall_nomatch (s : List Char)
    (h : ∀ i, i < s.length → marker.isPrefixOf (s.drop i) = false) :
    findallScriptlet s = [] := by
  have hs := findallGo_skip s [] (by
    intro i hi
    rw [List.append_nil]
    exact h i (by simpa using hi))
  simpa [findallScriptlet, List.append_nil] using hs

/-- The inspector applied to the output consisting exactly of the marker
example appends exactly the package token. -/
lemma search_fooResult (reg : List (List Char)) :
    searchScriptletFailure fooResult reg = reg ++ ["scylla-foo".data] := by
  have h1 : findallScriptlet (fooResult.stdout ++ fooResult.stderr) = [fooMarker] := by
    decide
  have h2 : lastToken fooMarker = "scylla-foo".data := by decide
  rw [search_eq, h1]
  simp [h2]

/-! ## Claims -/

/-- Claim C1, counterexample: in an environment where port 9042 is occupied
from the first poll while no service unit ever reports active during the
whole 900-second bound, `wait_services_up` returns normally.  The claim's
readiness predicate (all units active AND port occupied) never holds there,
so the claim's "only if" direction is false: the unit statuses, though
queried, do not affect the outcome. -/
theorem c1_counterexample :
    waitServicesUp downUnitsEnv = .ok () ∧
    downUnitsEnv.portFree 0 = false ∧
    (List.range 180).all
      (fun k => !(downUnitsEnv.unitStatus k "scylla-server")) = true :=
  ⟨rfl, rfl, by decide⟩

/-- Claim C1, amended: `wait_services_up` returns normally iff, at one of the
polls (every 5 seconds within the 900-second bound, i.e. poll `k` with
`5 * k < 900`), TCP port 9042 on localhost is not free — the unit statuses
are queried at each poll but their values do not affect the outcome — and if
the port is free at every poll within the bound, it raises the
`StartServiceError` readiness-timeout error rather than hanging. -/
theorem c1_amended (env : ServiceEnv) :
    (waitServicesUp env = .ok () ↔ ∃ k, 5 * k < 900 ∧ env.portFree k = false) ∧
    ((∀ k, 5 * k < 900 → env.portFree k = true) →
      waitServicesUp env =
        .error "Scylla service does not appear to be up after 900 s") := by
  have hn : (900 + 5 - 1) / 5 = 180 := by norm_num
  have key : ((List.range 180).find? (scyllaServiceIsUp env)).isSome = true ↔
      ∃ k, 5 * k < 900 ∧ env.portFree k = false := by
    rw [List.find?_isSome]
    constructor
    · rintro ⟨k, hk, hp⟩
      rw [List.mem_range] at hk
      refine ⟨k, by omega, ?_⟩
      simpa [scyllaServiceIsUp] using hp
    · rintro ⟨k, hk, hp⟩
      refine ⟨k, ?_, ?_⟩
      · rw [List.mem_range]; omega
      · simp [scyllaServiceIsUp, hp]
  constructor
  · unfold waitServicesUp waitFor
    rw [hn]
    cases hf : (List.range 180).find? (scyllaServiceIsUp env) with
    | some k =>
      have hex : ∃ k, 5 * k < 900 ∧ env.portFree k = false :=
        key.mp (by simp [hf])
      exact ⟨fun _ => hex, fun _ => rfl⟩
    | none =>
      have hnex : ¬ ∃ k, 5 * k < 900 ∧ env.portFree k = false := by
        intro hex
        have := key.mpr hex
        simp [hf] at this
      exact ⟨fun hcontra => absurd hcontra (by simp), fun hex => absurd hex hnex⟩
  · intro hall
    unfold waitServicesUp waitFor
    rw [hn]
    cases hf : (List.range 180).find? (scyllaServiceIsUp env) with
    | some k =>
      exfalso
      have hpk : scyllaServiceIsUp env k = true := List.find?_some hf
      have hkr : k ∈ List.range 180 := List.mem_of_find?_eq_some hf
      rw [List.mem_range] at hkr
      have hfree : env.portFree k = true := hall k (by omega)
      simp [scyllaServiceIsUp, hfree] at hpk
    | none => rfl

/-- Claim C1, witness: the amended statement at an environment whose port
opens at the third poll. -/
theorem c1_witness :
    (waitServicesUp lateEnv = .ok () ↔
      ∃ k, 5 * k < 900 ∧ lateEnv.portFree k = false) ∧
    ((∀ k, 5 * k < 900 → lateEnv.portFree k = true) →
      waitServicesUp lateEnv =
        .error "Scylla service does not appear to be up after 900 s") :=
  c1_amended lateEnv

/-- Claim C2, counterexample: with the APT variant resolved, an install call
whose command output contains the scriptlet-failure marker leaves the
registry empty, although the Inspector applied to the same result would have
recorded the package — the result is not passed through the Inspector for
every backend variant. -/
theorem c2_counterexample :
    occursIn fooMarker (fooResult.stdout ++ fooResult.stderr) = true ∧
    installVia .scyllaApt (.ok fooResult) [] = (true, []) ∧
    searchScriptletFailure fooResult [] = ["scylla-foo".data] :=
  ⟨by decide, rfl, by decide⟩

/-- Claim C2, amended: only the YUM and DNF backend variants pass the install
command's result through the Command Result Inspector (so only their install
calls can append to the ScriptletFailureRegistry); install calls through the
APT and Zypper variants leave the registry unchanged.  For the YUM variant a
successful install whose output is the marker example appends the package
token. -/
theorem c2_amended (r : CmdResult) (reg : List (List Char)) (o : RunOutcome) :
    (installVia .scyllaYum (.ok r) reg).2 = searchScriptletFailure r reg ∧
    (installVia .scyllaDnf (.ok r) reg).2 = searchScriptletFailure r reg ∧
    (installVia .scyllaApt o reg).2 = reg ∧
    (installVia .zypper o reg).2 = reg ∧
    (installVia .scyllaYum (.ok fooResult) reg).2 = reg ++ ["scylla-foo".data] :=
  ⟨rfl, rfl, rfl, rfl, search_fooResult reg⟩

/-- Claim C3: for the Scylla yum and dnf backends, `install` returns `True`
iff the install command exits successfully; in particular it returns `True`
on the marker example even though the Inspector records a scriptlet failure
from that same call's output (the registry changes).  The embedding is a
total function: the only exception path of the source, `process.CmdError`,
is caught and mapped to `False`, so the call never raises. -/
theorem c3_install_true_iff_success (o : RunOutcome) (reg : List (List Char)) :
    ((installVia .scyllaYum o reg).1 = o.isOk) ∧
    ((installVia .scyllaDnf o reg).1 = o.isOk) ∧
    (installVia .scyllaYum (.ok fooResult) reg).1 = true ∧
    searchScriptletFailure fooResult reg ≠ reg := by
  refine ⟨?_, ?_, rfl, ?_⟩
  · cases o <;> rfl
  · cases o <;> rfl
  · rw [search_fooResult reg]
    simp

/-- Claim C4, counterexample: a command result whose output contains the
marker text followed by further text on the same line: the greedy pattern
matches to the end of the line and the token appended is the line's final
token `bar`, not `scylla-foo`. -/
theorem c4_counterexample :
    occursIn fooMarker (fooBarResult.stdout ++ fooBarResult.stderr) = true ∧
    searchScriptletFailure fooBarResult [] = ["bar".data] ∧
    searchScriptletFailure fooBarResult [] ≠ ["scylla-foo".data] :=
  ⟨by decide, by decide, by decide⟩

/-- Claim C4, amended: each match of the pattern extends from the marker to
the end of its line and contributes the final whitespace-delimited token of
the matched text, so when the output ends with the marker text
`scriptlet failure in rpm package scylla-foo` and the pattern matches nowhere
earlier, exactly `scylla-foo` is appended exactly once; output in which the
pattern never matches leaves the registry unchanged; neither case raises
(the embedding is total). -/
theorem c4_amended (pre : List Char) (reg : List (List Char))
    (h : ∀ i, i < pre.length →
      marker.isPrefixOf ((pre ++ fooMarker).drop i) = false) :
    searchScriptletFailure ⟨pre ++ fooMarker, []⟩ reg = reg ++ ["scylla-foo".data] ∧
    searchScriptletFailure ⟨pre, []⟩ reg = reg := by
  have hfoo : findallGo 0 fooMarker = [fooMarker] := by decide
  have h2 : lastToken fooMarker = "scylla-foo".data := by decide
  have hpre : ∀ i, i < pre.length → marker.isPrefixOf (pre.drop i) = false := by
    intro i hi
    cases hx : marker.isPrefixOf (pre.drop i) with
    | false => rfl
    | true =>
      exfalso
      have hext := prefixOf_extend marker (pre.drop i) fooMarker hx
      rw [← List.drop_append_of_le_length hi.le] at hext
      rw [h i hi] at hext
      exact Bool.noConfusion hext
  constructor
  · have hsplit : findallScriptlet (pre ++ fooMarker) = [fooMarker] := by
      unfold findallScriptlet
      rw [findallGo_skip pre fooMarker h]
      exact hfoo
    rw [search_eq]
    simp only [List.append_nil]
    rw [hsplit]
    simp [h2]
  · rw [search_eq]
    simp only [List.append_nil]
    rw [findall_nomatch pre hpre]
    simp

/-- Claim C4, witness: the amended statement at a concrete log line followed
by the marker example. -/
theorem c4_witness :
    searchScriptletFailure
        ⟨"Installing package scylla-server\n".data ++ fooMarker, []⟩ [] =
      [] ++ ["scylla-foo".data] ∧
    searchScriptletFailure ⟨"Installing package scylla-server\n".data, []⟩ [] = [] :=
  c4_amended "Installing package scylla-server\n".data [] (by decide)

/-- Claim C5: the dispatcher of `scylla_setup` selects an installer variant
exactly for the supported combinations — ami=true (whatever the distribution),
Ubuntu 14.04, Ubuntu 16.04, Debian 8, Fedora 22, CentOS 7 — and for each of
them the `if/elif` chain determines exactly one variant; every other
combination ends in the clearly labeled unsupported-platform skip outcome
(`none`), never a best-guess variant. -/
theorem c5_dispatch (d : DistroInfo) (a : Bool) :
    ((selectInstaller d a).isSome = true ↔ claimSupported d a) ∧
    selectInstaller ⟨"Ubuntu", "14", "04"⟩ true = some .ami ∧
    selectInstaller ⟨"Ubuntu", "14", "04"⟩ false = some .ubuntu1404 ∧
    selectInstaller ⟨"Ubuntu", "16", "04"⟩ false = some .ubuntu1604 ∧
    selectInstaller ⟨"Debian", "8", "any"⟩ false = some .debian8 ∧
    selectInstaller ⟨"Fedora", "22", "any"⟩ false = some .fedora22 ∧
    selectInstaller ⟨"CentOS", "7", "any"⟩ false = some .centos7 ∧
    selectInstaller ⟨"Gentoo", "1", "2"⟩ false = none := by
  refine ⟨?_, by decide, by decide, by decide, by decide, by decide, by decide,
    by decide⟩
  unfold selectInstaller claimSupported
  split_ifs with h1 h2 h3 h4 h5 h6 <;> simp_all

/-- Claim C6: `start_services` invokes `start` on the units in list order and
its post-check raises `StartServiceError` naming the first unit not reporting
active; `stop_services` invokes `stop` in reverse list order and raises
`StopServiceError` naming a unit still active; `restart_services` restarts in
list order and raises `RestartServiceError` on a non-active unit; the three
error kinds are pairwise distinct, so callers can tell the failures apart. -/
theorem c6_lifecycle (st : String → Bool) (u : String) :
    (startServices st).1 = ["scylla-server", "scylla-jmx"] ∧
    (stopServices st).1 = ["scylla-jmx", "scylla-server"] ∧
    (restartServices st).1 = ["scylla-server", "scylla-jmx"] ∧
    ((startServices st).2 = .error (.startFail u) ↔
      services.find? (fun s => !st s) = some u) ∧
    ((stopServices st).2 = .error (.stopFail u) ↔
      services.find? (fun s => st s) = some u) ∧
    ((restartServices st).2 = .error (.restartFail u) ↔
      services.find? (fun s => !st s) = some u) ∧
    (∀ v : String, SvcError.startFail u ≠ .stopFail v ∧
      SvcError.startFail u ≠ .restartFail v ∧
      SvcError.stopFail u ≠ .restartFail v) := by
  refine ⟨rfl, rfl, rfl, ?_, ?_, ?_, ?_⟩
  · cases h1 : st "scylla-server" <;> cases h2 : st "scylla-jmx" <;>
      simp [startServices, checkActive, services, h1, h2, List.find?]
  · cases h1 : st "scylla-server" <;> cases h2 : st "scylla-jmx" <;>
      simp [stopServices, checkInactive, services, h1, h2, List.find?]
  · cases h1 : st "scylla-server" <;> cases h2 : st "scylla-jmx" <;>
      simp [restartServices, checkActive, services, h1, h2, List.find?]
  · intro v
    refine ⟨by simp, by simp, by simp⟩

/-- Claim C7: backend resolution is lazy and happens at most once — the four
tool names map to their backend variants, an unrecognized tool raises the
`NotImplementedError` message when no backend has been resolved yet, an
already-initialized manager is returned unchanged whatever tool would now be
detected, and once any resolution has succeeded every later resolution
returns the cached state unchanged, so at most one backend variant is ever
active. -/
theorem c7_lazy_singleton (tool tool2 : String) (m m' : SWMState) :
    (backendMapping "apt-get" = some .scyllaApt ∧
     backendMapping "yum" = some .scyllaYum ∧
     backendMapping "dnf" = some .scyllaDnf ∧
     backendMapping "zypper" = some .zypper) ∧
    (m.initialized = false → backendMapping tool = none →
      initOnDemand tool m =
        .error ("Unimplemented package management system: " ++ tool ++ ".")) ∧
    (m.initialized = true → initOnDemand tool m = .ok m) ∧
    (initOnDemand tool m = .ok m' → initOnDemand tool2 m' = .ok m') := by
  refine ⟨⟨by decide, by decide, by decide, by decide⟩, ?_, ?_, ?_⟩
  · intro h1 h2
    simp [initOnDemand, h1, h2]
  · intro h1
    simp [initOnDemand, h1]
  · intro h
    unfold initOnDemand at h ⊢
    by_cases hm : m.initialized
    · simp [hm] at h
      subst h
      simp [hm]
    · simp [hm] at h
      cases hb : backendMapping tool with
      | none => simp [hb] at h
      | some b =>
        simp [hb] at h
        rw [← h]
        simp

/-- Claim C7, witness: the concrete conjunction at an unrecognized tool and
an uninitialized manager, then a recognized resolution. -/
theorem c7_witness :
    (backendMapping "apt-get" = some .scyllaApt ∧
     backendMapping "yum" = some .scyllaYum ∧
     backendMapping "dnf" = some .scyllaDnf ∧
     backendMapping "zypper" = some .zypper) ∧
    ((⟨false, none⟩ : SWMState).initialized = false →
      backendMapping "pacman" = none →
      initOnDemand "pacman" ⟨false, none⟩ =
        .error ("Unimplemented package management system: " ++ "pacman" ++ ".")) ∧
    ((⟨false, none⟩ : SWMState).initialized = true →
      initOnDemand "pacman" ⟨false, none⟩ = .ok ⟨false, none⟩) ∧
    (initOnDemand "pacman" ⟨false, none⟩ = .ok ⟨true, some .scyllaYum⟩ →
      initOnDemand "yum" ⟨true, some .scyllaYum⟩ = .ok ⟨true, some .scyllaYum⟩) :=
  c7_lazy_singleton "pacman" "yum" ⟨false, none⟩ ⟨true, some .scyllaYum⟩

/-- Claim C8: in the Ubuntu 14.04 CI setup, the JRE provisioning gate
`parse_version(ver) >= parse_version('1.7')` is false for the resolved
version `1.6.3`, true for `1.7.0`, and true for every version at least
`1.7.0` in the version ordering (componentwise numeric comparison, not a
lexical string comparison). -/
theorem c8_version_gate (v : List Nat) (h : verGe v (parseVer "1.7.0") = true) :
    gateJre (parseVer "1.6.3") = false ∧
    gateJre (parseVer "1.7.0") = true ∧
    gateJre v = true := by
  refine ⟨by decide, by decide, ?_⟩
  have key : verGe v (parseVer "1.7.0") = verGe v (parseVer "1.7") := by
    have hsplit : parseVer "1.7.0" = parseVer "1.7" ++ [0] := by decide
    rw [hsplit]
    unfold verGe
    rw [verCmp_append_zero]
  unfold gateJre
  rw [← key]
  exact h

/-- Claim C8, witness: the gate at version `2.0`, which is at least
`1.7.0`. -/
theorem c8_witness :
    gateJre (parseVer "1.6.3") = false ∧
    gateJre (parseVer "1.7.0") = true ∧
    gateJre [2, 0] = true :=
  c8_version_gate [2, 0] (by decide)

/-- Claim C9: when the install command raises `CmdError`, the Scylla yum and
dnf `install` return `False` with the registry unchanged by that call; and
whenever an install call through the yum variant changes the registry, the
command had exited successfully — the Inspector runs only on the success
path. -/
theorem c9_failure_path (r : CmdResult) (reg : List (List Char)) (o : RunOutcome) :
    installVia .scyllaYum (.cmdError r) reg = (false, reg) ∧
    installVia .scyllaDnf (.cmdError r) reg = (false, reg) ∧
    ((installVia .scyllaYum o reg).2 ≠ reg → o.isOk = true) := by
  refine ⟨rfl, rfl, ?_⟩
  intro hchange
  cases o with
  | ok r' => rfl
  | cmdError r' => exact absurd rfl hchange

/-- Claim C9, witness: the statement at the marker-example result, whose
output does contain a scriptlet-failure marker. -/
theorem c9_witness :
    installVia .scyllaYum (.cmdError fooResult) [] = (false, []) ∧
    installVia .scyllaDnf (.cmdError fooResult) [] = (false, []) ∧
    ((installVia .scyllaYum (.ok fooResult) []).2 ≠ [] →
      (RunOutcome.ok fooResult).isOk = true) :=
  c9_failure_path fooResult [] (.ok fooResult)

/-- Claim C10, counterexample: the mode `ci` lies outside
`{'1.0', '1.1', '1.2', 'unstable'}`, yet the Fedora 22 installer's `run()`
resolves its package list through `setup_ci` and installs `scylla` — one
install, not zero. -/
theorem c10_counterexample :
    ("ci" ∉ (["1.0", "1.1", "1.2", "unstable"] : List String)) ∧
    fedora22RunPkgs "ci" = ["scylla"] ∧
    fedora22RunPkgs "ci" ≠ [] :=
  ⟨by decide, by decide, by decide⟩

/-- Claim C10, amended: `ScyllaInstallFedora22.setup_release` returns the
empty package list for every mode outside `{'1.0', '1.1', '1.2', 'unstable'}`
while still registering the default 1.1 repository descriptor, so for every
such mode other than `ci` (for which `run()` uses `setup_ci` instead and
installs `scylla`) the installer's `run()` performs zero package installs and
its install loop succeeds without raising, whatever the install outcomes
would have been. -/
theorem c10_amended (mode : String) (good : String → Bool)
    (h1 : mode ≠ "ci")
    (h2 : mode ∉ (["1.0", "1.1", "1.2", "unstable"] : List String)) :
    fedora22SetupRelease mode = (repoSrc11, []) ∧
    fedora22RunPkgs mode = [] ∧
    installPackages good (fedora22RunPkgs mode) = .ok () := by
  simp only [List.mem_cons, List.mem_singleton, not_or] at h2
  obtain ⟨hA, hB, hC, hD⟩ := h2
  have hrel : fedora22SetupRelease mode = (repoSrc11, []) := by
    simp [fedora22SetupRelease, hA, hB, hC, hD]
  refine ⟨hrel, ?_, ?_⟩
  · simp [fedora22RunPkgs, h1, hrel]
  · simp [fedora22RunPkgs, h1, hrel, installPackages]

/-- Claim C10, witness: the amended statement at mode `2.0` with every
install failing. -/
theorem c10_witness :
    fedora22SetupRelease "2.0" = (repoSrc11, []) ∧
    fedora22RunPkgs "2.0" = [] ∧
    installPackages (fun _ => false) (fedora22RunPkgs "2.0") = .ok () :=
  c10_amended "2.0" (fun _ => false) (by decide) (by decide)

end ScyllaArtifacts
